import Mathlib

/-!
Verification of the otp_textlocal device model: a shallow embedding of
`models.py` (`TextlocalSMSDevice.verify_token`, `generate_challenge`,
`_deliver_token`, `_validate_config`) and `conf.py` (`Settings._defaults`),
with theorems settling the specified behaviour.
-/

namespace OtpTextlocal

/-! ## Python integer parsing (`int(token)` in `verify_token`) -/

/-- Modelled from the spec: `verify_token` calls the Python builtin `int()` on
the candidate; whitespace characters stripped by `int()` before parsing. -/
def isPySpace (c : Char) : Bool :=
  c = ' ' || c = '\t' || c = '\n' || c = '\r' || c = '\x0b' || c = '\x0c'

/-- An ASCII decimal digit, as accepted by Python `int()`. -/
def pyDigit (c : Char) : Bool :=
  '0' ≤ c && c ≤ '9'

/-- Modelled from the spec: validity of the digit body of a Python integer
literal for `int()`: nonempty, digits with single underscores strictly between
digits.  The boolean argument records whether the previous character was a
digit (so an underscore is currently allowed). -/
def digitsOkAux : List Char → Bool → Bool
  | [], prev => prev
  | '_' :: rest, prev => prev && digitsOkAux rest false
  | c :: rest, _ => pyDigit c && digitsOkAux rest true

/-- Numeric value of a list of decimal digit characters (most significant
first). -/
def digitsVal (l : List Char) : Nat :=
  l.foldl (fun a c => a * 10 + (c.toNat - 48)) 0

/-- Modelled from the spec: the Python builtin `int()` applied to a string —
optional surrounding whitespace, optional sign, then a digit body; `none`
when `int()` would raise. -/
def pyParseInt (s : String) : Option Int :=
  let l := ((s.data.dropWhile isPySpace).reverse.dropWhile isPySpace).reverse
  let core : List Char → Option Nat := fun ds =>
    if digitsOkAux ds false then some (digitsVal (ds.filter (fun c => c ≠ '_'))) else none
  match l with
  | '+' :: ds => (core ds).map (fun v => (v : Int))
  | '-' :: ds => (core ds).map (fun v => -(v : Int))
  | ds => (core ds).map (fun v => (v : Int))

/-! ## Settings (`conf.py`) -/

/-- The result of reading one of the three delivery settings
(`OTP_TEXTLOCAL_API_KEY`, `OTP_TEXTLOCAL_URL`, `OTP_TEXTLOCAL_SENDER`)
through `conf.Settings.__getattr__`.  These names have no entry in
`Settings._defaults`, so a name neither configured in the Django settings nor
defaulted makes the attribute access itself raise `AttributeError`; a name
configured as Python `None` is returned as `None`; otherwise the configured
string is returned. -/
inductive SettingVal where
  | absent
  | pyNone
  | str (s : String)
deriving DecidableEq

/-- The configured string carried by a setting read (dummy fallback
otherwise); meaningful only after `_validate_config` has ensured the setting
is a string. -/
def SettingVal.strD : SettingVal → String → String
  | .str s, _ => s
  | _, d => d

/-- Whether the setting read produced an actual configured string. -/
def SettingVal.isStr : SettingVal → Bool
  | .str _ => true
  | _ => false

/-- The configuration surface consumed by the device (`conf.Settings`): for
each name, the outcome of `__getattr__`.  The seven names with an entry in
`Settings._defaults` always resolve to a value (the configured one, else the
default), so they are plain values here (`Option String` fields use `none`
for Python `None`); the three delivery settings have no default and are
three-valued (`SettingVal`). -/
structure Settings where
  OTP_TEXTLOCAL_ACCOUNT : Option String
  OTP_TEXTLOCAL_AUTH : Option String
  OTP_TEXTLOCAL_CHALLENGE_MESSAGE : String
  OTP_TEXTLOCAL_FROM : Option String
  OTP_TEXTLOCAL_NO_DELIVERY : Bool
  OTP_TEXTLOCAL_TOKEN_TEMPLATE : String
  OTP_TEXTLOCAL_TOKEN_VALIDITY : Nat
  OTP_TEXTLOCAL_API_KEY : SettingVal
  OTP_TEXTLOCAL_URL : SettingVal
  OTP_TEXTLOCAL_SENDER : SettingVal
deriving DecidableEq

/-- The out-of-the-box configuration: every `__getattr__` read resolved
through the `Settings._defaults` dict of `conf.py` alone.  The seven
defaulted names take their default; `OTP_TEXTLOCAL_API_KEY`,
`OTP_TEXTLOCAL_URL` and `OTP_TEXTLOCAL_SENDER` have no entry in the dict, so
reading them raises `AttributeError` (`absent`). -/
def defaultSettings : Settings :=
  { OTP_TEXTLOCAL_ACCOUNT := none
    OTP_TEXTLOCAL_AUTH := none
    OTP_TEXTLOCAL_CHALLENGE_MESSAGE := "Sent by SMS"
    OTP_TEXTLOCAL_FROM := none
    OTP_TEXTLOCAL_NO_DELIVERY := false
    OTP_TEXTLOCAL_TOKEN_TEMPLATE := "{token}"
    OTP_TEXTLOCAL_TOKEN_VALIDITY := 30
    OTP_TEXTLOCAL_API_KEY := .absent
    OTP_TEXTLOCAL_URL := .absent
    OTP_TEXTLOCAL_SENDER := .absent }

/-! ## Device state (`models.TextlocalSMSDevice` fields) -/

/-- The persisted fields of `TextlocalSMSDevice`: phone number, hex secret
key, the anti-replay watermark `last_t` (default -1), and the `confirmed`
flag inherited from `Device`. -/
structure TextlocalSMSDevice where
  number : String
  key : String
  last_t : Int
  confirmed : Bool
deriving DecidableEq

/-! ## TOTP engine (external `django_otp.oath.TOTP` primitive)

Modelled from the spec: the TOTP engine is an external pure primitive — a
deterministic function of (secret, time, step, drift).  With `step = 1` and
`t0 = 0` as configured by `totp_obj`, the step counter is
`t() = floor(time) + drift`, and `token()` is the RFC-6238 HOTP code of the
step counter (a number below 10^6).  For a fixed secret we model the engine
as an arbitrary function `hotp : Int → Nat` from step counter to code, passed
as a parameter; `tsec` is the floored current time. -/

/-- The step counter `totp.t()` at drift `off` when the floored current time
is `tsec` (step = 1 second, t0 = 0). -/
def totp_t (tsec off : Int) : Int := tsec + off

/-- The ascending list of drift offsets `range(-tolerance, 1)` scanned by
`verify_token`. -/
def offsetRange (tolerance : Nat) : List Int :=
  (List.range (tolerance + 1)).map (fun i : Nat => (i : Int) - (tolerance : Int))

/-! ## verify_token (`models.py` lines 137-157) -/

/-- The result of one `verify_token` call: the returned boolean, the device
state afterwards, and whether `self.save()` was called (persistence). -/
structure VerifyResult where
  verified : Bool
  device : TextlocalSMSDevice
  saved : Bool
deriving DecidableEq

/-- The `for offset in range(-tolerance, 1)` loop body of `verify_token`:
returns the step counter of the first offset accepted (where
`totp.t() > self.last_t` and `totp.token() == token`), or `none` if the loop
falls through to its `else` clause. -/
def scanLoop (hotp : Int → Nat) (tsec cand last_t : Int) : List Int → Option Int
  | [] => none
  | off :: rest =>
    if totp_t tsec off > last_t ∧ ((hotp (totp_t tsec off) : Int) = cand) then
      some (totp_t tsec off)
    else scanLoop hotp tsec cand last_t rest

/-- `verify_token` after the successful `int()` parse: scan the drift window;
on the first accepted offset set `last_t` to its step, save, and return
`True`; otherwise return `False` with the device untouched. -/
def verify_token_parsed (hotp : Int → Nat) (tolerance : Nat) (tsec : Int)
    (d : TextlocalSMSDevice) (cand : Int) : VerifyResult :=
  match scanLoop hotp tsec cand d.last_t (offsetRange tolerance) with
  | some t => ⟨true, { d with last_t := t }, true⟩
  | none => ⟨false, d, false⟩

/-- `TextlocalSMSDevice.verify_token`: parse the candidate with `int()`
(failure returns `False` with no state change), then scan the drift window. -/
def verify_token (hotp : Int → Nat) (tolerance : Nat) (tsec : Int)
    (d : TextlocalSMSDevice) (token : String) : VerifyResult :=
  match pyParseInt token with
  | none => ⟨false, d, false⟩
  | some cand => verify_token_parsed hotp tolerance tsec d cand

/-- A sequence of `verify_token` calls against one device, each call given as
(tolerance, floored time, candidate string); returns the final device state. -/
def runCalls (hotp : Int → Nat) (d : TextlocalSMSDevice) :
    List (Nat × Int × String) → TextlocalSMSDevice
  | [] => d
  | (tol, tsec, s) :: rest =>
    runCalls hotp ((verify_token hotp tol tsec d s).device) rest

/-! ## Token formatting (`format(totp.token(), '06d')` and `str.format`) -/

/-- The decimal digit characters of a natural number, most significant first
(always at least one digit). -/
def natDigits (n : Nat) : List Char :=
  if _h : n < 10 then [Nat.digitChar n]
  else natDigits (n / 10) ++ [Nat.digitChar (n % 10)]
termination_by n
decreasing_by omega

/-- Modelled from the spec: the Python builtin `format(n, '06d')` — the
decimal rendering of `n`, zero-padded on the left to width 6. -/
def format06d (n : Nat) : String :=
  String.mk (List.replicate (6 - (natDigits n).length) '0' ++ natDigits n)

/-- Modelled from the spec: Python `str.format(token=token)` restricted to
the single named field used by the templates — every occurrence of the
placeholder `\x7btoken\x7d` in the template is replaced by the token text. -/
def substToken (tok : List Char) : List Char → List Char
  | '\x7b' :: 't' :: 'o' :: 'k' :: 'e' :: 'n' :: '\x7d' :: rest => tok ++ substToken tok rest
  | c :: rest => c :: substToken tok rest
  | [] => []

/-- Template substitution on strings (`template.format(token=token)`). -/
def pyFormatToken (template token : String) : String :=
  String.mk (substToken token.data template.data)

/-! ## Delivery (`_validate_config`, `_deliver_token`, `generate_challenge`) -/

/-- The exceptions `generate_challenge` can raise: `AttributeError` from
`conf.Settings.__getattr__` when a read setting is neither configured nor
defaulted; `ImproperlyConfigured` from `_validate_config`; a transport-level
`RequestException` from `requests.post`; the `HTTPError` re-raised after
`raise_for_status`; a JSON decoding error from `response.json()`; and the
generic `Exception(str(json_response))` for a non-success provider status. -/
inductive ChallengeError where
  | AttributeError (name : String)
  | ImproperlyConfigured (msg : String)
  | RequestException
  | HTTPError
  | JSONDecodeError
  | DeliveryRejected (msg : String)
deriving DecidableEq

/-- A provider HTTP response: the numeric HTTP status code, and the JSON body
as a string-to-string object (`none` when the body is not parseable JSON). -/
structure HttpResponse where
  status_code : Nat
  json : Option (List (String × String))
deriving DecidableEq

/-- The external requests library's `Response.raise_for_status`: it raises
`HTTPError` exactly for 4xx client-error and 5xx server-error status codes;
informational, success and (final, unfollowed) redirect codes pass. -/
def raise_for_status_raises (code : Nat) : Bool :=
  400 ≤ code && code < 600

/-- The outcome of the `requests.post` call: a transport-level exception, or
a response from the provider. -/
inductive HttpOutcome where
  | transportError
  | response (r : HttpResponse)
deriving DecidableEq

/-- The data of one outbound `requests.post` network call made by
`_deliver_token`. -/
structure DeliveryAttempt where
  url : String
  sender : String
  message : String
  numbers : String
  apiKey : String
deriving DecidableEq

/-- `TextlocalSMSDevice._validate_config`: each of the three delivery
settings is read through `conf.Settings.__getattr__` — an entirely absent
name makes the attribute access raise `AttributeError`; a name configured as
`None` fails the `is None` check and raises `ImproperlyConfigured`; the
checks run in source order API key, URL, sender. -/
def validate_config (st : Settings) : Except ChallengeError Unit :=
  match st.OTP_TEXTLOCAL_API_KEY with
  | .absent => .error (.AttributeError "OTP_TEXTLOCAL_API_KEY")
  | .pyNone => .error (.ImproperlyConfigured
      "OTP_TEXTLOCAL_API_KEY must be set to your Textlocal API KEY")
  | .str _ =>
    match st.OTP_TEXTLOCAL_URL with
    | .absent => .error (.AttributeError "OTP_TEXTLOCAL_URL")
    | .pyNone => .error (.ImproperlyConfigured
        "OTP_TEXTLOCAL_URL must be set to the Textlocal send-msg API endpoint URL")
    | .str _ =>
      match st.OTP_TEXTLOCAL_SENDER with
      | .absent => .error (.AttributeError "OTP_TEXTLOCAL_SENDER")
      | .pyNone => .error (.ImproperlyConfigured
          "OTP_TEXTLOCAL_SENDER must be set to one of your Textlocal sender (based on mask)")
      | .str _ => .ok ()

/-- The `data` dict posted by `_deliver_token` to the provider endpoint
(built after `_validate_config` has ensured the settings are strings). -/
def postData (st : Settings) (number token : String) : DeliveryAttempt :=
  { url := st.OTP_TEXTLOCAL_URL.strD ""
    sender := st.OTP_TEXTLOCAL_SENDER.strD ""
    message := token
    numbers := number
    apiKey := st.OTP_TEXTLOCAL_API_KEY.strD "" }

/-- `TextlocalSMSDevice._deliver_token`: validate the configuration, post the
message, let `raise_for_status` reject 4xx/5xx statuses, then demand a JSON
body whose `status` field equals `success`.  Returns the result together
with the list of network calls made (empty exactly when no call was made). -/
def deliver_token (st : Settings) (number token : String) (outcome : HttpOutcome) :
    Except ChallengeError Unit × List DeliveryAttempt :=
  match validate_config st with
  | .error e => (.error e, [])
  | .ok _ =>
    match outcome with
    | .transportError => (.error .RequestException, [postData st number token])
    | .response r =>
      if raise_for_status_raises r.status_code then
        (.error .HTTPError, [postData st number token])
      else
        match r.json with
        | none => (.error .JSONDecodeError, [postData st number token])
        | some j =>
          if j.lookup "status" = some "success" then (.ok (), [postData st number token])
          else (.error (.DeliveryRejected (toString j)), [postData st number token])

/-- The observable side effects of one `generate_challenge` call: messages
written to the log (`logger.info` in no-delivery mode) and outbound network
calls. -/
structure ChallengeEffects where
  logged : List String
  attempts : List DeliveryAttempt
deriving DecidableEq

/-- `TextlocalSMSDevice.generate_challenge`: format the current code with the
token template; log it in no-delivery mode, otherwise deliver it; on success
return the challenge message with the same code substituted.  The device
state (second component) is whatever the call leaves behind. -/
def generate_challenge (st : Settings) (hotp : Int → Nat) (tsec : Int)
    (d : TextlocalSMSDevice) (outcome : HttpOutcome) :
    Except ChallengeError String × TextlocalSMSDevice × ChallengeEffects :=
  let token := format06d (hotp tsec)
  let message := pyFormatToken st.OTP_TEXTLOCAL_TOKEN_TEMPLATE token
  if st.OTP_TEXTLOCAL_NO_DELIVERY then
    (.ok (pyFormatToken st.OTP_TEXTLOCAL_CHALLENGE_MESSAGE token), d, ⟨[message], []⟩)
  else
    match deliver_token st d.number message outcome with
    | (.ok _, atts) => (.ok (pyFormatToken st.OTP_TEXTLOCAL_CHALLENGE_MESSAGE token), d, ⟨[], atts⟩)
    | (.error e, atts) => (.error e, d, ⟨[], atts⟩)

/-! ## Concrete instances used to exhibit the theorems on explicit inputs -/

/-- A concrete engine instance satisfying the spec contract for the TOTP
primitive (deterministic, codes below 10^6), used to evaluate the theorems on
explicit inputs. -/
def hotpMod (t : Int) : Nat := t.toNat % 1000000

/-- A concrete device: fresh watermark (the field default -1), a 40-hex-char
key, a destination number. -/
def devA : TextlocalSMSDevice :=
  { number := "5551234"
    key := "0123456789012345678901234567890123456789"
    last_t := -1
    confirmed := false }

/-- A fully configured settings instance (all three delivery settings
configured as strings). -/
def stFull : Settings :=
  { defaultSettings with
    OTP_TEXTLOCAL_API_KEY := .str "apikey"
    OTP_TEXTLOCAL_URL := .str "https://api.txtlocal.com/send/"
    OTP_TEXTLOCAL_SENDER := .str "TXTLCL" }

/-- Settings with delivery enabled and all three delivery settings
explicitly configured as Python `None`. -/
def stExplicitNone : Settings :=
  { defaultSettings with
    OTP_TEXTLOCAL_API_KEY := .pyNone
    OTP_TEXTLOCAL_URL := .pyNone
    OTP_TEXTLOCAL_SENDER := .pyNone }

/-- Settings with no-delivery mode on and all three delivery settings
absent. -/
def stNoDelivery : Settings :=
  { defaultSettings with OTP_TEXTLOCAL_NO_DELIVERY := true }

/-! ## Helper lemmas -/

lemma mem_offsetRange (tol : Nat) (off : Int) :
    off ∈ offsetRange tol ↔ -(tol : Int) ≤ off ∧ off ≤ 0 := by
  unfold offsetRange
  simp only [List.mem_map, List.mem_range]
  constructor
  · rintro ⟨i, hi, rfl⟩
    constructor <;> omega
  · rintro ⟨h1, h2⟩
    exact ⟨(off + tol).toNat, by omega, by omega⟩

lemma offsetRange_pairwise (tol : Nat) : (offsetRange tol).Pairwise (· < ·) := by
  unfold offsetRange
  have h := List.pairwise_lt_range (tol + 1)
  refine List.pairwise_map.mpr (h.imp ?_)
  intros
  omega

lemma verify_token_of_parse_none (hotp : Int → Nat) (tol : Nat) (tsec : Int)
    (d : TextlocalSMSDevice) (s : String) (h : pyParseInt s = none) :
    verify_token hotp tol tsec d s = ⟨false, d, false⟩ := by
  unfold verify_token
  rw [h]

lemma verify_token_of_parse_some (hotp : Int → Nat) (tol : Nat) (tsec : Int)
    (d : TextlocalSMSDevice) (s : String) (cand : Int) (h : pyParseInt s = some cand) :
    verify_token hotp tol tsec d s = verify_token_parsed hotp tol tsec d cand := by
  unfold verify_token
  rw [h]

lemma verify_token_parsed_of_scan_none (hotp : Int → Nat) (tol : Nat) (tsec : Int)
    (d : TextlocalSMSDevice) (cand : Int)
    (h : scanLoop hotp tsec cand d.last_t (offsetRange tol) = none) :
    verify_token_parsed hotp tol tsec d cand = ⟨false, d, false⟩ := by
  unfold verify_token_parsed
  rw [h]

lemma verify_token_parsed_of_scan_some (hotp : Int → Nat) (tol : Nat) (tsec : Int)
    (d : TextlocalSMSDevice) (cand t : Int)
    (h : scanLoop hotp tsec cand d.last_t (offsetRange tol) = some t) :
    verify_token_parsed hotp tol tsec d cand = ⟨true, { d with last_t := t }, true⟩ := by
  unfold verify_token_parsed
  rw [h]

lemma scanLoop_eq_none_iff (hotp : Int → Nat) (tsec cand last_t : Int) (l : List Int) :
    scanLoop hotp tsec cand last_t l = none ↔
      ∀ off ∈ l, ¬(totp_t tsec off > last_t ∧ ((hotp (totp_t tsec off) : Int) = cand)) := by
  induction l with
  | nil => simp [scanLoop]
  | cons off rest ih =>
    unfold scanLoop
    split
    · rename_i h
      simp only [List.mem_cons]
      constructor
      · intro h'; cases h'
      · intro h'; exact absurd h (h' off (Or.inl rfl))
    · rename_i h
      simp only [List.mem_cons, ih]
      constructor
      · rintro h' off' (rfl | hmem)
        · exact h
        · exact h' off' hmem
      · intro h' off' hmem; exact h' off' (Or.inr hmem)

lemma scanLoop_some_spec (hotp : Int → Nat) (tsec cand last_t : Int) (l : List Int) (t : Int)
    (h : scanLoop hotp tsec cand last_t l = some t) :
    ∃ off ∈ l, t = totp_t tsec off ∧ totp_t tsec off > last_t ∧
      ((hotp (totp_t tsec off) : Int) = cand) := by
  induction l with
  | nil => simp [scanLoop] at h
  | cons off rest ih =>
    unfold scanLoop at h
    split at h
    · rename_i hc
      cases h
      exact ⟨off, List.mem_cons_self _ _, rfl, hc⟩
    · obtain ⟨off', hmem, hspec⟩ := ih h
      exact ⟨off', List.mem_cons_of_mem _ hmem, hspec⟩

lemma scanLoop_first (hotp : Int → Nat) (tsec cand last_t : Int) (l : List Int) (off₀ : Int)
    (hsort : l.Pairwise (· < ·)) (hmem : off₀ ∈ l)
    (hacc : totp_t tsec off₀ > last_t ∧ ((hotp (totp_t tsec off₀) : Int) = cand))
    (hfirst : ∀ off ∈ l, off < off₀ →
      ¬(totp_t tsec off > last_t ∧ ((hotp (totp_t tsec off) : Int) = cand))) :
    scanLoop hotp tsec cand last_t l = some (totp_t tsec off₀) := by
  induction l with
  | nil => cases hmem
  | cons off rest ih =>
    rcases List.mem_cons.mp hmem with rfl | hmem'
    · unfold scanLoop
      rw [if_pos hacc]
    · have hlt : off < off₀ := (List.pairwise_cons.mp hsort).1 off₀ hmem'
      unfold scanLoop
      rw [if_neg (hfirst off (List.mem_cons_self _ _) hlt)]
      exact ih (List.pairwise_cons.mp hsort).2 hmem'
        (fun o ho hlt' => hfirst o (List.mem_cons_of_mem _ ho) hlt')

lemma verify_token_parsed_verified_iff (hotp : Int → Nat) (tol : Nat) (tsec : Int)
    (d : TextlocalSMSDevice) (cand : Int) :
    (verify_token_parsed hotp tol tsec d cand).verified = true ↔
      ∃ off ∈ offsetRange tol, totp_t tsec off > d.last_t ∧
        ((hotp (totp_t tsec off) : Int) = cand) := by
  cases hs : scanLoop hotp tsec cand d.last_t (offsetRange tol) with
  | none =>
    rw [verify_token_parsed_of_scan_none _ _ _ _ _ hs]
    simp only [Bool.false_eq_true, false_iff]
    rw [scanLoop_eq_none_iff] at hs
    rintro ⟨off, hmem, hcond⟩
    exact hs off hmem hcond
  | some t =>
    rw [verify_token_parsed_of_scan_some _ _ _ _ _ _ hs]
    simp only [true_iff]
    obtain ⟨off, hmem, _, hcond⟩ := scanLoop_some_spec _ _ _ _ _ _ hs
    exact ⟨off, hmem, hcond⟩

lemma verify_token_last_t_mono (hotp : Int → Nat) (tol : Nat) (tsec : Int)
    (d : TextlocalSMSDevice) (s : String) :
    d.last_t ≤ (verify_token hotp tol tsec d s).device.last_t := by
  cases hp : pyParseInt s with
  | none => rw [verify_token_of_parse_none _ _ _ _ _ hp]
  | some cand =>
    rw [verify_token_of_parse_some _ _ _ _ _ _ hp]
    cases hs : scanLoop hotp tsec cand d.last_t (offsetRange tol) with
    | none => rw [verify_token_parsed_of_scan_none _ _ _ _ _ hs]
    | some t =>
      rw [verify_token_parsed_of_scan_some _ _ _ _ _ _ hs]
      obtain ⟨off, _, rfl, hgt, _⟩ := scanLoop_some_spec _ _ _ _ _ _ hs
      exact le_of_lt hgt

lemma verify_token_advance (hotp : Int → Nat) (tol : Nat) (tsec : Int)
    (d : TextlocalSMSDevice) (s : String)
    (h : (verify_token hotp tol tsec d s).verified = true) :
    d.last_t < (verify_token hotp tol tsec d s).device.last_t := by
  cases hp : pyParseInt s with
  | none => rw [verify_token_of_parse_none _ _ _ _ _ hp] at h; cases h
  | some cand =>
    rw [verify_token_of_parse_some _ _ _ _ _ _ hp] at h ⊢
    cases hs : scanLoop hotp tsec cand d.last_t (offsetRange tol) with
    | none => rw [verify_token_parsed_of_scan_none _ _ _ _ _ hs] at h; cases h
    | some t =>
      rw [verify_token_parsed_of_scan_some _ _ _ _ _ _ hs]
      obtain ⟨off, _, rfl, hgt, _⟩ := scanLoop_some_spec _ _ _ _ _ _ hs
      exact hgt

lemma runCalls_last_t_mono (hotp : Int → Nat) (calls : List (Nat × Int × String)) :
    ∀ d : TextlocalSMSDevice, d.last_t ≤ (runCalls hotp d calls).last_t := by
  induction calls with
  | nil => intro d; exact le_refl _
  | cons c rest ih =>
    intro d
    obtain ⟨tol, tsec, s⟩ := c
    exact le_trans (verify_token_last_t_mono hotp tol tsec d s) (ih _)

lemma pyDigit_digitChar (n : Nat) (h : n < 10) : pyDigit (Nat.digitChar n) = true := by
  interval_cases n <;> decide

lemma natDigits_digits (n : Nat) : ∀ c ∈ natDigits n, pyDigit c = true := by
  induction n using Nat.strong_induction_on with
  | _ n ih =>
    unfold natDigits
    split
    · rename_i h
      intro c hc
      rw [List.mem_singleton] at hc
      subst hc
      exact pyDigit_digitChar n h
    · rename_i h
      intro c hc
      rcases List.mem_append.mp hc with h1 | h1
      · exact ih (n / 10) (by omega) c h1
      · rw [List.mem_singleton] at h1
        subst h1
        exact pyDigit_digitChar (n % 10) (Nat.mod_lt _ (by omega))

lemma natDigits_length_le (k : Nat) : ∀ n : Nat, 0 < k → n < 10 ^ k →
    (natDigits n).length ≤ k := by
  induction k with
  | zero => intro n h; omega
  | succ k ih =>
    intro n _ h
    unfold natDigits
    split
    · simp
    · rename_i hn
      have hk0 : 0 < k := by
        rcases Nat.eq_zero_or_pos k with rfl | hpos
        · norm_num at h; omega
        · exact hpos
      have h1 : n / 10 < 10 ^ k := by
        rw [Nat.div_lt_iff_lt_mul (by omega : 0 < 10)]
        calc n < 10 ^ (k + 1) := h
        _ = 10 ^ k * 10 := by ring
      have := ih (n / 10) hk0 h1
      simp only [List.length_append, List.length_singleton]
      omega

lemma format06d_length (n : Nat) (h : n < 1000000) : (format06d n).length = 6 := by
  have hlen : (natDigits n).length ≤ 6 :=
    natDigits_length_le 6 n (by omega) (by norm_num [h])
  unfold format06d
  rw [String.length_mk, List.length_append, List.length_replicate]
  omega

lemma format06d_digits (n : Nat) : ∀ c ∈ (format06d n).data, pyDigit c = true := by
  unfold format06d
  intro c hc
  rcases List.mem_append.mp hc with h1 | h1
  · rw [List.eq_of_mem_replicate h1]
    decide
  · exact natDigits_digits n c h1

lemma validate_config_not_all_str (st : Settings)
    (h : st.OTP_TEXTLOCAL_API_KEY.isStr = false ∨ st.OTP_TEXTLOCAL_URL.isStr = false ∨
      st.OTP_TEXTLOCAL_SENDER.isStr = false) :
    (∃ msg, validate_config st = .error (.ImproperlyConfigured msg))
  ∨ (∃ name, validate_config st = .error (.AttributeError name)) := by
  unfold validate_config
  cases hk : st.OTP_TEXTLOCAL_API_KEY with
  | absent => exact Or.inr ⟨_, rfl⟩
  | pyNone => exact Or.inl ⟨_, rfl⟩
  | str k =>
    cases hu : st.OTP_TEXTLOCAL_URL with
    | absent => exact Or.inr ⟨_, rfl⟩
    | pyNone => exact Or.inl ⟨_, rfl⟩
    | str u =>
      cases hs : st.OTP_TEXTLOCAL_SENDER with
      | absent => exact Or.inr ⟨_, rfl⟩
      | pyNone => exact Or.inl ⟨_, rfl⟩
      | str v =>
        rcases h with h | h | h
        · rw [hk] at h
          simp [SettingVal.isStr] at h
        · rw [hu] at h
          simp [SettingVal.isStr] at h
        · rw [hs] at h
          simp [SettingVal.isStr] at h

lemma validate_config_explicit_none (st : Settings)
    (hnoabs : st.OTP_TEXTLOCAL_API_KEY ≠ .absent ∧ st.OTP_TEXTLOCAL_URL ≠ .absent ∧
      st.OTP_TEXTLOCAL_SENDER ≠ .absent)
    (h : st.OTP_TEXTLOCAL_API_KEY.isStr = false ∨ st.OTP_TEXTLOCAL_URL.isStr = false ∨
      st.OTP_TEXTLOCAL_SENDER.isStr = false) :
    ∃ msg, validate_config st = .error (.ImproperlyConfigured msg) := by
  unfold validate_config
  cases hk : st.OTP_TEXTLOCAL_API_KEY with
  | absent => exact absurd hk hnoabs.1
  | pyNone => exact ⟨_, rfl⟩
  | str k =>
    cases hu : st.OTP_TEXTLOCAL_URL with
    | absent => exact absurd hu hnoabs.2.1
    | pyNone => exact ⟨_, rfl⟩
    | str u =>
      cases hs : st.OTP_TEXTLOCAL_SENDER with
      | absent => exact absurd hs hnoabs.2.2
      | pyNone => exact ⟨_, rfl⟩
      | str v =>
        rcases h with h | h | h
        · rw [hk] at h
          simp [SettingVal.isStr] at h
        · rw [hu] at h
          simp [SettingVal.isStr] at h
        · rw [hs] at h
          simp [SettingVal.isStr] at h

lemma validate_config_api_key_absent (st : Settings)
    (h : st.OTP_TEXTLOCAL_API_KEY = .absent) :
    validate_config st = .error (.AttributeError "OTP_TEXTLOCAL_API_KEY") := by
  unfold validate_config
  rw [h]

lemma deliver_token_of_validate_error (st : Settings) (number token : String)
    (outcome : HttpOutcome) (e : ChallengeError) (h : validate_config st = .error e) :
    deliver_token st number token outcome = (.error e, []) := by
  unfold deliver_token
  rw [h]

lemma deliver_token_attempt_message (st : Settings) (number token : String)
    (outcome : HttpOutcome) :
    ∀ att ∈ (deliver_token st number token outcome).2, att.message = token := by
  unfold deliver_token
  split
  · intro att h
    simp at h
  · intro att h
    split at h
    · rw [List.mem_singleton] at h
      subst h
      rfl
    · split at h
      · rw [List.mem_singleton] at h
        subst h
        rfl
      · split at h
        · rw [List.mem_singleton] at h
          subst h
          rfl
        · split at h <;>
          · rw [List.mem_singleton] at h
            subst h
            rfl

lemma deliver_token_transport (st : Settings) (number token : String)
    (hv : validate_config st = .ok ()) :
    deliver_token st number token .transportError
      = (.error .RequestException, [postData st number token]) := by
  unfold deliver_token
  rw [hv]

lemma deliver_token_http_error (st : Settings) (number token : String) (r : HttpResponse)
    (hv : validate_config st = .ok ())
    (hro : raise_for_status_raises r.status_code = true) :
    deliver_token st number token (.response r)
      = (.error .HTTPError, [postData st number token]) := by
  unfold deliver_token
  rw [hv]
  dsimp only
  rw [hro]
  rfl

lemma deliver_token_json_error (st : Settings) (number token : String) (r : HttpResponse)
    (hv : validate_config st = .ok ())
    (hro : raise_for_status_raises r.status_code = false) (hj : r.json = none) :
    deliver_token st number token (.response r)
      = (.error .JSONDecodeError, [postData st number token]) := by
  unfold deliver_token
  rw [hv]
  dsimp only
  rw [hro, hj]
  rfl

lemma deliver_token_status (st : Settings) (number token : String) (r : HttpResponse)
    (j : List (String × String))
    (hv : validate_config st = .ok ())
    (hro : raise_for_status_raises r.status_code = false) (hj : r.json = some j) :
    deliver_token st number token (.response r)
      = if j.lookup "status" = some "success" then (.ok (), [postData st number token])
        else (.error (.DeliveryRejected (toString j)), [postData st number token]) := by
  unfold deliver_token
  rw [hv]
  dsimp only
  rw [hro, hj]
  rfl

lemma generate_challenge_of_no_delivery (st : Settings) (hotp : Int → Nat) (tsec : Int)
    (d : TextlocalSMSDevice) (outcome : HttpOutcome)
    (h : st.OTP_TEXTLOCAL_NO_DELIVERY = true) :
    generate_challenge st hotp tsec d outcome =
      (.ok (pyFormatToken st.OTP_TEXTLOCAL_CHALLENGE_MESSAGE (format06d (hotp tsec))), d,
       ⟨[pyFormatToken st.OTP_TEXTLOCAL_TOKEN_TEMPLATE (format06d (hotp tsec))], []⟩) := by
  unfold generate_challenge
  rw [h]
  rfl

lemma pyFormatToken_token_is (tok : String) :
    pyFormatToken "Token is {token}" tok = "Token is " ++ tok := by
  unfold pyFormatToken
  show String.mk ('T' :: 'o' :: 'k' :: 'e' :: 'n' :: ' ' :: 'i' :: 's' :: ' '
    :: (tok.data ++ substToken tok.data [])) = _
  simp [substToken, String.ext_iff]

lemma generate_challenge_attempts_message (st : Settings) (hotp : Int → Nat) (tsec : Int)
    (d : TextlocalSMSDevice) (outcome : HttpOutcome) :
    ∀ att ∈ (generate_challenge st hotp tsec d outcome).2.2.attempts,
      att.message = pyFormatToken st.OTP_TEXTLOCAL_TOKEN_TEMPLATE (format06d (hotp tsec)) := by
  unfold generate_challenge
  split
  · intro att h
    simp at h
  · dsimp only
    split
    · rename_i a atts heq
      intro att h
      have h2 : atts = (deliver_token st d.number
          (pyFormatToken st.OTP_TEXTLOCAL_TOKEN_TEMPLATE (format06d (hotp tsec))) outcome).2 := by
        rw [heq]
      rw [h2] at h
      exact deliver_token_attempt_message _ _ _ _ att h
    · rename_i e atts heq
      intro att h
      have h2 : atts = (deliver_token st d.number
          (pyFormatToken st.OTP_TEXTLOCAL_TOKEN_TEMPLATE (format06d (hotp tsec))) outcome).2 := by
        rw [heq]
      rw [h2] at h
      exact deliver_token_attempt_message _ _ _ _ att h

lemma generate_challenge_ok_result (st : Settings) (hotp : Int → Nat) (tsec : Int)
    (d : TextlocalSMSDevice) (outcome : HttpOutcome) (r : String) :
    (generate_challenge st hotp tsec d outcome).1 = .ok r →
    r = pyFormatToken st.OTP_TEXTLOCAL_CHALLENGE_MESSAGE (format06d (hotp tsec)) := by
  unfold generate_challenge
  split
  · intro h
    cases h
    rfl
  · dsimp only
    split
    · intro h
      cases h
      rfl
    · intro h
      cases h

/-! ## Claim theorems -/

/-- Claim C1: for every device state, tolerance, current time and
integer-parseable candidate, `verify_token` scans drift offsets from
`-tolerance` to `0` inclusive in ascending order and accepts exactly the
first offset whose step exceeds the watermark and whose code equals the
candidate; on acceptance it sets `last_t` to that offset's step, saves the
device, and returns success; if no offset qualifies it returns failure with
the device untouched and unsaved. -/
theorem verify_token_scans_first_eligible_offset
    (hotp : Int → Nat) (tol : Nat) (tsec : Int) (d : TextlocalSMSDevice)
    (s : String) (n : Int) (hparse : pyParseInt s = some n) :
    ((∀ off : Int, off ∈ offsetRange tol ↔ -(tol : Int) ≤ off ∧ off ≤ 0)
      ∧ (offsetRange tol).Pairwise (· < ·))
  ∧ (∀ off₀ ∈ offsetRange tol,
      (totp_t tsec off₀ > d.last_t ∧ ((hotp (totp_t tsec off₀) : Int) = n)) →
      (∀ off ∈ offsetRange tol, off < off₀ →
        ¬(totp_t tsec off > d.last_t ∧ ((hotp (totp_t tsec off) : Int) = n))) →
      verify_token hotp tol tsec d s = ⟨true, { d with last_t := totp_t tsec off₀ }, true⟩)
  ∧ ((∀ off ∈ offsetRange tol,
        ¬(totp_t tsec off > d.last_t ∧ ((hotp (totp_t tsec off) : Int) = n))) →
      verify_token hotp tol tsec d s = ⟨false, d, false⟩) := by
  refine ⟨⟨mem_offsetRange tol, offsetRange_pairwise tol⟩, ?_, ?_⟩
  · intro off₀ hmem hacc hfirst
    rw [verify_token_of_parse_some _ _ _ _ _ _ hparse]
    exact verify_token_parsed_of_scan_some _ _ _ _ _ _
      (scanLoop_first hotp tsec n d.last_t (offsetRange tol) off₀
        (offsetRange_pairwise tol) hmem hacc hfirst)
  · intro hnone
    rw [verify_token_of_parse_some _ _ _ _ _ _ hparse]
    exact verify_token_parsed_of_scan_none _ _ _ _ _
      ((scanLoop_eq_none_iff hotp tsec n d.last_t (offsetRange tol)).mpr hnone)

/-- Witness for C1 at explicit inputs: candidate "100", time 100, tolerance
3, fresh device. -/
theorem verify_token_scans_first_eligible_offset_witness :
    pyParseInt "100" = some 100
  ∧ (((∀ off : Int, off ∈ offsetRange 3 ↔ -(3 : Int) ≤ off ∧ off ≤ 0)
      ∧ (offsetRange 3).Pairwise (· < ·))
  ∧ (∀ off₀ ∈ offsetRange 3,
      (totp_t 100 off₀ > devA.last_t ∧ ((hotpMod (totp_t 100 off₀) : Int) = 100)) →
      (∀ off ∈ offsetRange 3, off < off₀ →
        ¬(totp_t 100 off > devA.last_t ∧ ((hotpMod (totp_t 100 off) : Int) = 100))) →
      verify_token hotpMod 3 100 devA "100"
        = ⟨true, { devA with last_t := totp_t 100 off₀ }, true⟩)
  ∧ ((∀ off ∈ offsetRange 3,
        ¬(totp_t 100 off > devA.last_t ∧ ((hotpMod (totp_t 100 off) : Int) = 100))) →
      verify_token hotpMod 3 100 devA "100" = ⟨false, devA, false⟩)) :=
  ⟨by decide, verify_token_scans_first_eligible_offset hotpMod 3 100 devA "100" 100 (by decide)⟩

/-- Claim C2: the watermark `last_t` is monotonically non-decreasing across
every sequence of `verify_token` calls; any acceptance after the watermark
has reached `T` lands at a step strictly above `T` (so no candidate matching
at a step ≤ T is ever accepted again); and verifying the same accepted code
twice (same time, a candidate matching only the current step) succeeds the
first time and fails the second. -/
theorem watermark_monotone_and_replay_rejected
    (hotp : Int → Nat) (tol : Nat) (tsec : Int) (d : TextlocalSMSDevice) (s : String)
    (hparse : pyParseInt s = some ((hotp tsec : Int)))
    (hfresh : d.last_t < tsec)
    (hnocoll : ∀ off ∈ offsetRange tol, off ≠ 0 →
      ((hotp (totp_t tsec off) : Int) ≠ (hotp tsec : Int))) :
    (∀ (d0 : TextlocalSMSDevice) (calls : List (Nat × Int × String)),
        d0.last_t ≤ (runCalls hotp d0 calls).last_t)
  ∧ (∀ (d0 : TextlocalSMSDevice) (calls : List (Nat × Int × String))
        (tol2 : Nat) (tsec2 : Int) (s2 : String) (T : Int),
        T ≤ d0.last_t →
        (verify_token hotp tol2 tsec2 (runCalls hotp d0 calls) s2).verified = true →
        T < (verify_token hotp tol2 tsec2 (runCalls hotp d0 calls) s2).device.last_t)
  ∧ (verify_token hotp tol tsec d s).verified = true
  ∧ (verify_token hotp tol tsec (verify_token hotp tol tsec d s).device s).verified
      = false := by
  have hmem0 : (0 : Int) ∈ offsetRange tol := (mem_offsetRange tol 0).mpr ⟨by omega, le_refl 0⟩
  have hacc : totp_t tsec 0 > d.last_t ∧ ((hotp (totp_t tsec 0) : Int) = (hotp tsec : Int)) := by
    constructor
    · unfold totp_t
      omega
    · rw [show totp_t tsec 0 = tsec from by unfold totp_t; omega]
  have hscan : scanLoop hotp tsec ((hotp tsec : Int)) d.last_t (offsetRange tol)
      = some (totp_t tsec 0) := by
    refine scanLoop_first hotp tsec _ d.last_t (offsetRange tol) 0
      (offsetRange_pairwise tol) hmem0 hacc ?_
    rintro off hm hlt ⟨hgt, hcode⟩
    exact hnocoll off hm (by omega) hcode
  have h1 : verify_token hotp tol tsec d s = ⟨true, { d with last_t := totp_t tsec 0 }, true⟩ := by
    rw [verify_token_of_parse_some _ _ _ _ _ _ hparse]
    exact verify_token_parsed_of_scan_some _ _ _ _ _ _ hscan
  refine ⟨fun d0 calls => runCalls_last_t_mono hotp calls d0, ?_, ?_, ?_⟩
  · intro d0 calls tol2 tsec2 s2 T hT hver
    exact lt_of_le_of_lt (le_trans hT (runCalls_last_t_mono hotp calls d0))
      (verify_token_advance hotp tol2 tsec2 _ s2 hver)
  · rw [h1]
  · rw [h1]
    have hscan2 : scanLoop hotp tsec ((hotp tsec : Int))
        ({ d with last_t := totp_t tsec 0 } : TextlocalSMSDevice).last_t (offsetRange tol)
        = none := by
      rw [scanLoop_eq_none_iff]
      rintro off hm ⟨hgt, hcode⟩
      by_cases h0 : off = 0
      · subst h0
        revert hgt
        unfold totp_t
        simp
      · exact hnocoll off hm h0 hcode
    rw [verify_token_of_parse_some _ _ _ _ _ _ hparse,
      verify_token_parsed_of_scan_none _ _ _ _ _ hscan2]

/-- Witness for C2 at explicit inputs: time 100, tolerance 3, fresh device,
candidate "100" (the code of the current step under the concrete engine). -/
theorem watermark_monotone_and_replay_rejected_witness :
    (pyParseInt "100" = some ((hotpMod 100 : Int))
      ∧ devA.last_t < 100
      ∧ (∀ off ∈ offsetRange 3, off ≠ 0 →
          ((hotpMod (totp_t 100 off) : Int) ≠ (hotpMod 100 : Int))))
  ∧ ((∀ (d0 : TextlocalSMSDevice) (calls : List (Nat × Int × String)),
        d0.last_t ≤ (runCalls hotpMod d0 calls).last_t)
  ∧ (∀ (d0 : TextlocalSMSDevice) (calls : List (Nat × Int × String))
        (tol2 : Nat) (tsec2 : Int) (s2 : String) (T : Int),
        T ≤ d0.last_t →
        (verify_token hotpMod tol2 tsec2 (runCalls hotpMod d0 calls) s2).verified = true →
        T < (verify_token hotpMod tol2 tsec2 (runCalls hotpMod d0 calls) s2).device.last_t)
  ∧ (verify_token hotpMod 3 100 devA "100").verified = true
  ∧ (verify_token hotpMod 3 100 (verify_token hotpMod 3 100 devA "100").device "100").verified
      = false) :=
  ⟨⟨by decide, by decide, by decide⟩,
    watermark_monotone_and_replay_rejected hotpMod 3 100 devA "100"
      (by decide) (by decide) (by decide)⟩

/-- Claim C3: for a fresh device, a candidate equal to the code generated at
time `T` verifies successfully at every time in `[T, T + tolerance]` and
fails at `T + tolerance + 1` (the code value not recurring in the probe
window); and a candidate equal to the code generated at `T + 1` fails at
time `T` (future codes are not accepted early). -/
theorem code_validity_window
    (hotp : Int → Nat) (tol : Nat) (T : Int) (d : TextlocalSMSDevice) (s : String)
    (hparse : pyParseInt s = some ((hotp T : Int)))
    (hfresh : d.last_t < T)
    (hnolate : ∀ off ∈ offsetRange tol,
      ((hotp (totp_t (T + (tol : Int) + 1) off) : Int) ≠ (hotp T : Int))) :
    (∀ V : Int, T ≤ V → V ≤ T + (tol : Int) →
      (verify_token hotp tol V d s).verified = true)
  ∧ (verify_token hotp tol (T + (tol : Int) + 1) d s).verified = false
  ∧ (∀ s2 : String, pyParseInt s2 = some ((hotp (T + 1) : Int)) →
      (∀ off ∈ offsetRange tol, ((hotp (totp_t T off) : Int) ≠ (hotp (T + 1) : Int))) →
      (verify_token hotp tol T d s2).verified = false) := by
  refine ⟨?_, ?_, ?_⟩
  · intro V hVl hVr
    rw [verify_token_of_parse_some _ _ _ _ _ _ hparse,
      verify_token_parsed_verified_iff]
    refine ⟨T - V, (mem_offsetRange tol _).mpr ⟨by omega, by omega⟩, ?_, ?_⟩
    · unfold totp_t
      omega
    · rw [show totp_t V (T - V) = T from by unfold totp_t; omega]
  · rw [verify_token_of_parse_some _ _ _ _ _ _ hparse]
    have hnone : scanLoop hotp (T + (tol : Int) + 1) ((hotp T : Int)) d.last_t
        (offsetRange tol) = none := by
      rw [scanLoop_eq_none_iff]
      rintro off hm ⟨hgt, hcode⟩
      exact hnolate off hm hcode
    rw [verify_token_parsed_of_scan_none _ _ _ _ _ hnone]
  · intro s2 hparse2 hnoc2
    rw [verify_token_of_parse_some _ _ _ _ _ _ hparse2]
    have hnone : scanLoop hotp T ((hotp (T + 1) : Int)) d.last_t
        (offsetRange tol) = none := by
      rw [scanLoop_eq_none_iff]
      rintro off hm ⟨hgt, hcode⟩
      exact hnoc2 off hm hcode
    rw [verify_token_parsed_of_scan_none _ _ _ _ _ hnone]

/-- Witness for C3 at explicit inputs: generation time 100, tolerance 3,
fresh device, candidate "100". -/
theorem code_validity_window_witness :
    (pyParseInt "100" = some ((hotpMod 100 : Int))
      ∧ devA.last_t < 100
      ∧ (∀ off ∈ offsetRange 3,
          ((hotpMod (totp_t (100 + (3 : Int) + 1) off) : Int) ≠ (hotpMod 100 : Int))))
  ∧ ((∀ V : Int, 100 ≤ V → V ≤ 100 + (3 : Int) →
        (verify_token hotpMod 3 V devA "100").verified = true)
  ∧ (verify_token hotpMod 3 (100 + (3 : Int) + 1) devA "100").verified = false
  ∧ (∀ s2 : String, pyParseInt s2 = some ((hotpMod (100 + 1) : Int)) →
      (∀ off ∈ offsetRange 3, ((hotpMod (totp_t 100 off) : Int) ≠ (hotpMod (100 + 1) : Int))) →
      (verify_token hotpMod 3 100 devA s2).verified = false)) :=
  ⟨⟨by decide, by decide, by decide⟩,
    code_validity_window hotpMod 3 100 devA "100" (by decide) (by decide) (by decide)⟩

/-- Claim C4: a candidate that `int()` cannot parse makes `verify_token`
return false immediately, with the device unchanged and not saved, without
consulting the TOTP engine (the result is the same for every engine,
tolerance and time); the embedding is a total function, so no exception
escapes. -/
theorem malformed_candidate_fast_reject
    (hotp : Int → Nat) (tol : Nat) (tsec : Int) (d : TextlocalSMSDevice)
    (s : String) (h : pyParseInt s = none) :
    verify_token hotp tol tsec d s = ⟨false, d, false⟩
  ∧ (∀ (hotp2 : Int → Nat) (tol2 : Nat) (tsec2 : Int),
      verify_token hotp2 tol2 tsec2 d s = verify_token hotp tol tsec d s) := by
  refine ⟨verify_token_of_parse_none _ _ _ _ _ h, ?_⟩
  intro hotp2 tol2 tsec2
  rw [verify_token_of_parse_none _ _ _ _ _ h, verify_token_of_parse_none _ _ _ _ _ h]

/-- Witness for C4 at an explicit input: the non-numeric candidate "12a45". -/
theorem malformed_candidate_fast_reject_witness :
    pyParseInt "12a45" = none
  ∧ (verify_token hotpMod 3 100 devA "12a45" = ⟨false, devA, false⟩
      ∧ (∀ (hotp2 : Int → Nat) (tol2 : Nat) (tsec2 : Int),
          verify_token hotp2 tol2 tsec2 devA "12a45" = verify_token hotpMod 3 100 devA "12a45")) :=
  ⟨by decide, malformed_candidate_fast_reject hotpMod 3 100 devA "12a45" (by decide)⟩

/-- Claim C9: `verify_token` compares the candidate as an integer after
parsing, so any two textual forms that parse to the same integer verify
identically, and all equal the run on the already-parsed integer; in
particular "012345", "12345", " 12345 " and "+12345" all parse to 12345, so
leading zeros of the delivered code are not required. -/
theorem candidate_textual_forms_equivalent
    (hotp : Int → Nat) (tol : Nat) (tsec : Int) (d : TextlocalSMSDevice)
    (s1 s2 : String) (n : Int)
    (h1 : pyParseInt s1 = some n) (h2 : pyParseInt s2 = some n) :
    verify_token hotp tol tsec d s1 = verify_token_parsed hotp tol tsec d n
  ∧ verify_token hotp tol tsec d s1 = verify_token hotp tol tsec d s2
  ∧ pyParseInt "012345" = some 12345
  ∧ pyParseInt "12345" = some 12345
  ∧ pyParseInt " 12345 " = some 12345
  ∧ pyParseInt "+12345" = some 12345 := by
  refine ⟨verify_token_of_parse_some _ _ _ _ _ _ h1, ?_, by decide, by decide, by decide,
    by decide⟩
  rw [verify_token_of_parse_some _ _ _ _ _ _ h1, verify_token_of_parse_some _ _ _ _ _ _ h2]

/-- Witness for C9 at explicit inputs: the zero-padded and the
sign-prefixed forms of the same code. -/
theorem candidate_textual_forms_equivalent_witness :
    (pyParseInt "012345" = some 12345 ∧ pyParseInt "+12345" = some 12345)
  ∧ (verify_token hotpMod 3 100 devA "012345" = verify_token_parsed hotpMod 3 100 devA 12345
  ∧ verify_token hotpMod 3 100 devA "012345" = verify_token hotpMod 3 100 devA "+12345"
  ∧ pyParseInt "012345" = some 12345
  ∧ pyParseInt "12345" = some 12345
  ∧ pyParseInt " 12345 " = some 12345
  ∧ pyParseInt "+12345" = some 12345) :=
  ⟨⟨by decide, by decide⟩,
    candidate_textual_forms_equivalent hotpMod 3 100 devA "012345" "+12345" 12345
      (by decide) (by decide)⟩

/-- Claim C5: `generate_challenge` formats the current code as a 6-digit
zero-padded decimal string; the delivered message is the token template with
the code substituted (template "Token is {token}" yields "Token is " followed
by the 6 digits); the returned value is the separately configured challenge
acknowledgment with the same code substituted; under the default
acknowledgment "Sent by SMS" the return value contains no code. -/
theorem challenge_token_formatting
    (st : Settings) (hotp : Int → Nat) (tsec : Int) (d : TextlocalSMSDevice)
    (outcome : HttpOutcome) (hcode : hotp tsec < 1000000) :
    ((format06d (hotp tsec)).length = 6
      ∧ (∀ c ∈ (format06d (hotp tsec)).data, pyDigit c = true))
  ∧ (st.OTP_TEXTLOCAL_NO_DELIVERY = true →
      (generate_challenge st hotp tsec d outcome).2.2.logged
        = [pyFormatToken st.OTP_TEXTLOCAL_TOKEN_TEMPLATE (format06d (hotp tsec))])
  ∧ (∀ att ∈ (generate_challenge st hotp tsec d outcome).2.2.attempts,
      att.message = pyFormatToken st.OTP_TEXTLOCAL_TOKEN_TEMPLATE (format06d (hotp tsec)))
  ∧ pyFormatToken "Token is {token}" (format06d (hotp tsec))
      = "Token is " ++ format06d (hotp tsec)
  ∧ (∀ r : String, (generate_challenge st hotp tsec d outcome).1 = .ok r →
      r = pyFormatToken st.OTP_TEXTLOCAL_CHALLENGE_MESSAGE (format06d (hotp tsec)))
  ∧ pyFormatToken defaultSettings.OTP_TEXTLOCAL_CHALLENGE_MESSAGE (format06d (hotp tsec))
      = "Sent by SMS" := by
  refine ⟨⟨format06d_length _ hcode, format06d_digits _⟩, ?_,
    generate_challenge_attempts_message st hotp tsec d outcome,
    pyFormatToken_token_is _,
    fun r => generate_challenge_ok_result st hotp tsec d outcome r, rfl⟩
  intro hnd
  rw [generate_challenge_of_no_delivery st hotp tsec d outcome hnd]

/-- Witness for C5 at explicit inputs: the concrete engine at time 100 in
no-delivery mode. -/
theorem challenge_token_formatting_witness :
    hotpMod 100 < 1000000
  ∧ (((format06d (hotpMod 100)).length = 6
      ∧ (∀ c ∈ (format06d (hotpMod 100)).data, pyDigit c = true))
  ∧ (stNoDelivery.OTP_TEXTLOCAL_NO_DELIVERY = true →
      (generate_challenge stNoDelivery hotpMod 100 devA .transportError).2.2.logged
        = [pyFormatToken stNoDelivery.OTP_TEXTLOCAL_TOKEN_TEMPLATE (format06d (hotpMod 100))])
  ∧ (∀ att ∈ (generate_challenge stNoDelivery hotpMod 100 devA .transportError).2.2.attempts,
      att.message = pyFormatToken stNoDelivery.OTP_TEXTLOCAL_TOKEN_TEMPLATE (format06d (hotpMod 100)))
  ∧ pyFormatToken "Token is {token}" (format06d (hotpMod 100))
      = "Token is " ++ format06d (hotpMod 100)
  ∧ (∀ r : String, (generate_challenge stNoDelivery hotpMod 100 devA .transportError).1 = .ok r →
      r = pyFormatToken stNoDelivery.OTP_TEXTLOCAL_CHALLENGE_MESSAGE (format06d (hotpMod 100)))
  ∧ pyFormatToken defaultSettings.OTP_TEXTLOCAL_CHALLENGE_MESSAGE (format06d (hotpMod 100))
      = "Sent by SMS") :=
  ⟨by decide, challenge_token_formatting stNoDelivery hotpMod 100 devA .transportError (by decide)⟩

/-- With delivery enabled, a configuration-validation error propagates out of
`generate_challenge` unchanged, with no log line and no network call. -/
lemma generate_challenge_of_validate_error (st : Settings) (hotp : Int → Nat) (tsec : Int)
    (d : TextlocalSMSDevice) (outcome : HttpOutcome) (e : ChallengeError)
    (hdeliv : st.OTP_TEXTLOCAL_NO_DELIVERY = false)
    (hv : validate_config st = .error e) :
    generate_challenge st hotp tsec d outcome = (.error e, d, ⟨[], []⟩) := by
  have hdel := deliver_token_of_validate_error st d.number
    (pyFormatToken st.OTP_TEXTLOCAL_TOKEN_TEMPLATE (format06d (hotp tsec))) outcome e hv
  unfold generate_challenge
  rw [hdeliv]
  dsimp only
  rw [hdel]
  rfl

/-- Counterexample to claim C6 as stated: at the out-of-the-box configuration
(delivery enabled, the three delivery settings entirely absent — they have no
entry in `Settings._defaults`), `generate_challenge` raises `AttributeError`
from the settings object's attribute lookup, not `ImproperlyConfigured`. -/
theorem absent_delivery_config_attribute_error_counterexample :
    defaultSettings.OTP_TEXTLOCAL_NO_DELIVERY = false
  ∧ defaultSettings.OTP_TEXTLOCAL_API_KEY = .absent
  ∧ defaultSettings.OTP_TEXTLOCAL_URL = .absent
  ∧ defaultSettings.OTP_TEXTLOCAL_SENDER = .absent
  ∧ (generate_challenge defaultSettings hotpMod 100 devA .transportError).1
      = .error (.AttributeError "OTP_TEXTLOCAL_API_KEY")
  ∧ (∀ msg, (generate_challenge defaultSettings hotpMod 100 devA .transportError).1
      ≠ .error (.ImproperlyConfigured msg)) := by
  have hgen : (generate_challenge defaultSettings hotpMod 100 devA .transportError).1
      = .error (.AttributeError "OTP_TEXTLOCAL_API_KEY") := rfl
  refine ⟨rfl, rfl, rfl, rfl, hgen, ?_⟩
  intro msg h
  rw [hgen] at h
  injection h with h2
  cases h2

/-- Claim C6 (amended): with delivery enabled, a delivery setting configured
as `None` makes `generate_challenge` raise `ImproperlyConfigured`, while a
delivery setting entirely absent (no entry in `Settings._defaults`) makes the
settings lookup itself raise `AttributeError`; in both cases the error is
raised before any network call and is a distinct shape from every delivery
failure. -/
theorem delivery_config_error_raised_before_network
    (st : Settings) (hotp : Int → Nat) (tsec : Int) (d : TextlocalSMSDevice)
    (outcome : HttpOutcome)
    (hdeliv : st.OTP_TEXTLOCAL_NO_DELIVERY = false)
    (hmiss : st.OTP_TEXTLOCAL_API_KEY.isStr = false ∨ st.OTP_TEXTLOCAL_URL.isStr = false ∨
      st.OTP_TEXTLOCAL_SENDER.isStr = false) :
    ((∃ msg, (generate_challenge st hotp tsec d outcome).1
        = .error (.ImproperlyConfigured msg))
      ∨ (∃ name, (generate_challenge st hotp tsec d outcome).1
        = .error (.AttributeError name)))
  ∧ ((st.OTP_TEXTLOCAL_API_KEY ≠ .absent ∧ st.OTP_TEXTLOCAL_URL ≠ .absent ∧
        st.OTP_TEXTLOCAL_SENDER ≠ .absent) →
      ∃ msg, (generate_challenge st hotp tsec d outcome).1
        = .error (.ImproperlyConfigured msg))
  ∧ (st.OTP_TEXTLOCAL_API_KEY = .absent →
      (generate_challenge st hotp tsec d outcome).1
        = .error (.AttributeError "OTP_TEXTLOCAL_API_KEY"))
  ∧ (generate_challenge st hotp tsec d outcome).2.2.attempts = []
  ∧ (∀ msg, ChallengeError.ImproperlyConfigured msg ≠ .RequestException
      ∧ ChallengeError.ImproperlyConfigured msg ≠ .HTTPError
      ∧ ChallengeError.ImproperlyConfigured msg ≠ .JSONDecodeError
      ∧ ∀ m2, ChallengeError.ImproperlyConfigured msg ≠ .DeliveryRejected m2)
  ∧ (∀ name, ChallengeError.AttributeError name ≠ .RequestException
      ∧ ChallengeError.AttributeError name ≠ .HTTPError
      ∧ ChallengeError.AttributeError name ≠ .JSONDecodeError
      ∧ ∀ m2, ChallengeError.AttributeError name ≠ .DeliveryRejected m2) := by
  refine ⟨?_, ?_, ?_, ?_, ?_, ?_⟩
  · rcases validate_config_not_all_str st hmiss with ⟨msg, hv⟩ | ⟨name, hv⟩
    · exact Or.inl ⟨msg,
        by rw [generate_challenge_of_validate_error st hotp tsec d outcome _ hdeliv hv]⟩
    · exact Or.inr ⟨name,
        by rw [generate_challenge_of_validate_error st hotp tsec d outcome _ hdeliv hv]⟩
  · intro hnoabs
    obtain ⟨msg, hv⟩ := validate_config_explicit_none st hnoabs hmiss
    exact ⟨msg,
      by rw [generate_challenge_of_validate_error st hotp tsec d outcome _ hdeliv hv]⟩
  · intro habs
    have hv := validate_config_api_key_absent st habs
    rw [generate_challenge_of_validate_error st hotp tsec d outcome _ hdeliv hv]
  · rcases validate_config_not_all_str st hmiss with ⟨msg, hv⟩ | ⟨name, hv⟩ <;>
      rw [generate_challenge_of_validate_error st hotp tsec d outcome _ hdeliv hv]
  · intro m
    refine ⟨?_, ?_, ?_, ?_⟩
    · intro h
      cases h
    · intro h
      cases h
    · intro h
      cases h
    · intro m2 h
      cases h
  · intro m
    refine ⟨?_, ?_, ?_, ?_⟩
    · intro h
      cases h
    · intro h
      cases h
    · intro h
      cases h
    · intro m2 h
      cases h

/-- Witness for the amended C6 at explicit inputs: delivery enabled, all
three delivery settings explicitly configured as None. -/
theorem delivery_config_error_raised_before_network_witness :
    (stExplicitNone.OTP_TEXTLOCAL_NO_DELIVERY = false
      ∧ (stExplicitNone.OTP_TEXTLOCAL_API_KEY.isStr = false
          ∨ stExplicitNone.OTP_TEXTLOCAL_URL.isStr = false
          ∨ stExplicitNone.OTP_TEXTLOCAL_SENDER.isStr = false))
  ∧ (((∃ msg, (generate_challenge stExplicitNone hotpMod 100 devA .transportError).1
        = .error (.ImproperlyConfigured msg))
      ∨ (∃ name, (generate_challenge stExplicitNone hotpMod 100 devA .transportError).1
        = .error (.AttributeError name)))
  ∧ ((stExplicitNone.OTP_TEXTLOCAL_API_KEY ≠ .absent
        ∧ stExplicitNone.OTP_TEXTLOCAL_URL ≠ .absent
        ∧ stExplicitNone.OTP_TEXTLOCAL_SENDER ≠ .absent) →
      ∃ msg, (generate_challenge stExplicitNone hotpMod 100 devA .transportError).1
        = .error (.ImproperlyConfigured msg))
  ∧ (stExplicitNone.OTP_TEXTLOCAL_API_KEY = .absent →
      (generate_challenge stExplicitNone hotpMod 100 devA .transportError).1
        = .error (.AttributeError "OTP_TEXTLOCAL_API_KEY"))
  ∧ (generate_challenge stExplicitNone hotpMod 100 devA .transportError).2.2.attempts = []
  ∧ (∀ msg, ChallengeError.ImproperlyConfigured msg ≠ .RequestException
      ∧ ChallengeError.ImproperlyConfigured msg ≠ .HTTPError
      ∧ ChallengeError.ImproperlyConfigured msg ≠ .JSONDecodeError
      ∧ ∀ m2, ChallengeError.ImproperlyConfigured msg ≠ .DeliveryRejected m2)
  ∧ (∀ name, ChallengeError.AttributeError name ≠ .RequestException
      ∧ ChallengeError.AttributeError name ≠ .HTTPError
      ∧ ChallengeError.AttributeError name ≠ .JSONDecodeError
      ∧ ∀ m2, ChallengeError.AttributeError name ≠ .DeliveryRejected m2)) :=
  ⟨⟨by decide, by decide⟩,
    delivery_config_error_raised_before_network stExplicitNone hotpMod 100 devA
      .transportError (by decide) (by decide)⟩

/-- Claim C7: `generate_challenge` never mutates any stored device field —
for every configuration, engine, time and delivery outcome (success,
configuration error, transport error, provider rejection) the device record
it leaves behind is exactly the input device. -/
theorem generate_challenge_never_mutates_device
    (st : Settings) (hotp : Int → Nat) (tsec : Int) (d : TextlocalSMSDevice)
    (outcome : HttpOutcome) :
    (generate_challenge st hotp tsec d outcome).2.1 = d := by
  unfold generate_challenge
  split
  · rfl
  · dsimp only
    split <;> rfl

/-- Counterexample to claim C8 as stated: with valid configuration, a final
302 redirect response — a non-2xx HTTP status — whose JSON body carries
`status` = "success" makes `_deliver_token` return success rather than raise:
`raise_for_status` only raises for 4xx/5xx. -/
theorem non2xx_delivery_success_counterexample :
    validate_config stFull = .ok ()
  ∧ ¬(200 ≤ 302 ∧ 302 < 300)
  ∧ raise_for_status_raises 302 = false
  ∧ (deliver_token stFull "5551234" "000100"
      (.response ⟨302, some [("status", "success")]⟩)).1 = .ok () :=
  ⟨rfl, by omega, rfl, rfl⟩

/-- Claim C8 (amended): once configuration is valid, `_deliver_token`
succeeds exactly when the provider returned a response that passes
`raise_for_status` (which raises precisely for 4xx/5xx status codes; a final
3xx passes) and whose JSON body has a `status` field equal to "success"; a
transport error, a 4xx/5xx status, an unparseable body, and a missing or
non-"success" status field each produce a distinct raised error. -/
theorem delivery_success_iff_status_success
    (st : Settings) (number token : String) (outcome : HttpOutcome)
    (hv : validate_config st = .ok ()) :
    (∀ c : Nat, raise_for_status_raises c = true ↔ 400 ≤ c ∧ c < 600)
  ∧ ((deliver_token st number token outcome).1 = .ok () ↔
      (∃ r : HttpResponse, outcome = .response r
        ∧ raise_for_status_raises r.status_code = false
        ∧ (∃ j, r.json = some j ∧ j.lookup "status" = some "success")))
  ∧ (deliver_token st number token .transportError).1 = .error .RequestException
  ∧ (∀ r : HttpResponse, raise_for_status_raises r.status_code = true →
      (deliver_token st number token (.response r)).1 = .error .HTTPError)
  ∧ (∀ r : HttpResponse, raise_for_status_raises r.status_code = false → r.json = none →
      (deliver_token st number token (.response r)).1 = .error .JSONDecodeError)
  ∧ (∀ (r : HttpResponse) (j : List (String × String)),
      raise_for_status_raises r.status_code = false → r.json = some j →
      j.lookup "status" ≠ some "success" →
      (deliver_token st number token (.response r)).1
        = .error (.DeliveryRejected (toString j))) := by
  refine ⟨?_, ?_, by rw [deliver_token_transport st number token hv], ?_, ?_, ?_⟩
  · intro c
    unfold raise_for_status_raises
    simp
  · constructor
    · intro h
      cases outcome with
      | transportError =>
        rw [deliver_token_transport st number token hv] at h
        cases h
      | response r =>
        refine ⟨r, rfl, ?_⟩
        cases hro : raise_for_status_raises r.status_code with
        | true =>
          rw [deliver_token_http_error st number token r hv hro] at h
          cases h
        | false =>
          refine ⟨rfl, ?_⟩
          cases hj : r.json with
          | none =>
            rw [deliver_token_json_error st number token r hv hro hj] at h
            cases h
          | some j =>
            rw [deliver_token_status st number token r j hv hro hj] at h
            refine ⟨j, rfl, ?_⟩
            by_cases hl : j.lookup "status" = some "success"
            · exact hl
            · rw [if_neg hl] at h
              cases h
    · rintro ⟨r, rfl, hro, j, hj, hl⟩
      rw [deliver_token_status st number token r j hv hro hj, if_pos hl]
  · intro r hro
    rw [deliver_token_http_error st number token r hv hro]
  · intro r hro hj
    rw [deliver_token_json_error st number token r hv hro hj]
  · intro r j hro hj hl
    rw [deliver_token_status st number token r j hv hro hj, if_neg hl]

/-- Witness for the amended C8 at explicit inputs: fully configured settings,
a 200 response whose body carries status success. -/
theorem delivery_success_iff_status_success_witness :
    validate_config stFull = .ok ()
  ∧ ((∀ c : Nat, raise_for_status_raises c = true ↔ 400 ≤ c ∧ c < 600)
  ∧ ((deliver_token stFull "5551234" "000100"
        (.response ⟨200, some [("status", "success")]⟩)).1 = .ok () ↔
      (∃ r : HttpResponse, HttpOutcome.response (⟨200, some [("status", "success")]⟩ : HttpResponse)
          = .response r ∧ raise_for_status_raises r.status_code = false
        ∧ (∃ j, r.json = some j ∧ j.lookup "status" = some "success")))
  ∧ (deliver_token stFull "5551234" "000100" .transportError).1 = .error .RequestException
  ∧ (∀ r : HttpResponse, raise_for_status_raises r.status_code = true →
      (deliver_token stFull "5551234" "000100" (.response r)).1 = .error .HTTPError)
  ∧ (∀ r : HttpResponse, raise_for_status_raises r.status_code = false → r.json = none →
      (deliver_token stFull "5551234" "000100" (.response r)).1 = .error .JSONDecodeError)
  ∧ (∀ (r : HttpResponse) (j : List (String × String)),
      raise_for_status_raises r.status_code = false → r.json = some j →
      j.lookup "status" ≠ some "success" →
      (deliver_token stFull "5551234" "000100" (.response r)).1
        = .error (.DeliveryRejected (toString j)))) :=
  ⟨by rfl,
    delivery_success_iff_status_success stFull "5551234" "000100"
      (.response ⟨200, some [("status", "success")]⟩) (by rfl)⟩

/-- Claim C10: in no-delivery mode `generate_challenge` makes no network call
and performs no configuration validation: for every settings record with
no-delivery set — including one whose endpoint URL, API key and sender are
all absent — it succeeds, logs the formatted message, and returns the
acknowledgment. -/
theorem no_delivery_mode_skips_network_and_validation
    (st : Settings) (hotp : Int → Nat) (tsec : Int) (d : TextlocalSMSDevice)
    (outcome : HttpOutcome) (hnd : st.OTP_TEXTLOCAL_NO_DELIVERY = true) :
    generate_challenge st hotp tsec d outcome =
      (.ok (pyFormatToken st.OTP_TEXTLOCAL_CHALLENGE_MESSAGE (format06d (hotp tsec))), d,
       ⟨[pyFormatToken st.OTP_TEXTLOCAL_TOKEN_TEMPLATE (format06d (hotp tsec))], []⟩) :=
  generate_challenge_of_no_delivery st hotp tsec d outcome hnd

/-- Witness for C10 at explicit inputs: no-delivery settings with all three
delivery settings absent. -/
theorem no_delivery_mode_skips_network_and_validation_witness :
    (stNoDelivery.OTP_TEXTLOCAL_NO_DELIVERY = true
      ∧ stNoDelivery.OTP_TEXTLOCAL_URL = .absent
      ∧ stNoDelivery.OTP_TEXTLOCAL_API_KEY = .absent
      ∧ stNoDelivery.OTP_TEXTLOCAL_SENDER = .absent)
  ∧ generate_challenge stNoDelivery hotpMod 100 devA .transportError =
      (.ok (pyFormatToken stNoDelivery.OTP_TEXTLOCAL_CHALLENGE_MESSAGE (format06d (hotpMod 100))),
       devA,
       ⟨[pyFormatToken stNoDelivery.OTP_TEXTLOCAL_TOKEN_TEMPLATE (format06d (hotpMod 100))], []⟩) :=
  ⟨⟨by decide, by decide, by decide, by decide⟩,
    no_delivery_mode_skips_network_and_validation stNoDelivery hotpMod 100 devA
      .transportError (by decide)⟩

end OtpTextlocal
